import Mathlib

/-!
# Verification of the customer-support retrieval/confidence core

A shallow embedding, in Lean 4, of the retrieval-fusion and confidence-scoring
core of the customer-support bot:

* `tool/search_xyz_qa.py` / `tool/search_xyz_manual.py` — the two source search
  adapters (`FAQSearchEngine`, `ManualSearchEngine`);
* `tool/__init__.py` — the fusion engine (`UnifiedSearchEngine`);
* `src/agent.py` — the agent (`SupportAgent`), in particular its confidence
  estimator and request flow.

Modelling conventions:

* Python floats are modelled as exact rationals (`ℚ`); all arithmetic the core
  performs (products of small literals, `max`/`min`, division by small
  integers) is treated exactly.
* Python exceptions are modelled with `Except PyErr`; a `try/except` handler
  becomes a `match` on the `Except` value.  External collaborators (the
  embedding model, the vector index, the chat-completion service) are
  parameters of type `… → Except PyErr …`, so every possible behaviour of a
  collaborator — including raising — is quantified over.
* Python's truthiness tests on defaulted arguments (`x or default`) are
  modelled by `py_or_nat` / `py_or_rat` on `Option` values, where `none`
  models `None` and `some 0` models a passed-in zero (both falsy).
* `str.lower` is modelled by `py_lower` (character-wise case-folding; the
  keyword alphabets involved are Japanese, on which both are the identity),
  and `str.strip` by `py_strip` (trimming whitespace from both ends).
  Python `needle in hay` on strings is modelled by `str_contains`.
-/

/-- A Python exception value (only its presence matters to the control flow). -/
structure PyErr where
  msg : String
  deriving DecidableEq, Repr

/-- Python `x or default` for integer arguments: `None` and `0` are falsy and
are replaced by the default; any other value passes through. -/
def py_or_nat (x : Option Nat) (d : Nat) : Nat :=
  match x with
  | none => d
  | some n => if n = 0 then d else n

/-- Python `x or default` for float arguments: `None` and `0.0` are falsy and
are replaced by the default; any other value passes through. -/
def py_or_rat (x : Option ℚ) (d : ℚ) : ℚ :=
  match x with
  | none => d
  | some q => if q = 0 then d else q

/-- Python `s.strip()`: drop whitespace from both ends. -/
def py_strip (s : String) : String :=
  ⟨((s.data.dropWhile Char.isWhitespace).reverse.dropWhile Char.isWhitespace).reverse⟩

/-- Python `s.lower()`, character by character. -/
def py_lower (s : String) : String := ⟨s.data.map Char.toLower⟩

/-- Does the character list `hay` begin with `needle`? -/
def chars_begin_with : List Char → List Char → Bool
  | [], _ => true
  | _ :: _, [] => false
  | a :: as, b :: bs => a = b && chars_begin_with as bs

/-- Does `needle` occur as a contiguous run somewhere in the character list? -/
def chars_contain (needle : List Char) : List Char → Bool
  | [] => chars_begin_with needle []
  | b :: bs => chars_begin_with needle (b :: bs) || chars_contain needle bs

/-- Python `needle in hay` for strings: substring occurrence. -/
def str_contains (hay needle : String) : Bool := chars_contain needle.data hay.data

/-- Clamp a rational into `[0, 1]` (Python `max(0.0, min(1.0, x))`). -/
def clamp01 (x : ℚ) : ℚ := max 0 (min 1 x)

/-! ## Data model (`src/models.py`)

`SearchResult.metadata` is, in the source, a dict that always carries a
`type` discriminator (`'faq'` or `'manual'`) plus source-specific fields and
the original index distance.  It is modelled as a tagged variant. -/

/-- The metadata bag attached to a search result by the two adapters. -/
inductive ResultMeta where
  /-- `{'type': 'faq', 'question': …, 'answer': …, 'original_distance': …}` -/
  | faq (question answer : String) (original_distance : ℚ)
  /-- `{'type': 'manual', 'title': …, 'page': …, 'file_path': …,
      'original_distance': …}` -/
  | manual (title : String) (page : Nat) (file_path : String)
      (original_distance : ℚ)
  deriving DecidableEq, Repr

/-- The index distance stored in a result's metadata bag. -/
def ResultMeta.original_distance : ResultMeta → ℚ
  | .faq _ _ d => d
  | .manual _ _ _ d => d

/-- One retrieved passage (`models.SearchResult`). -/
structure SearchResult where
  content : String
  source : String
  score : ℚ
  metadata : ResultMeta
  deriving DecidableEq, Repr

/-- The per-request context dict (`Dict[str, Any]`); its contents are never
consulted by the core, so a generic association list suffices. -/
def Ctx : Type := List (String × String)

/-! ## Stable descending sort by score

Both adapters and the fusion engine sort with
`results.sort(key=lambda x: x.score, reverse=True)`: a *stable* sort (CPython
guarantees stability), descending by score.  It is modelled by a stable
insertion sort with the same denotation: an element is inserted in front of
the first element whose score does not exceed it, so earlier elements keep
priority on equal scores. -/

/-- Insert `x` in front of the first element scoring no higher than `x`. -/
def insert_by_score (x : SearchResult) : List SearchResult → List SearchResult
  | [] => [x]
  | y :: ys =>
    if y.score ≤ x.score then x :: y :: ys else y :: insert_by_score x ys

/-- `l.sort(key=lambda x: x.score, reverse=True)` as a pure function. -/
def sort_by_score_desc (l : List SearchResult) : List SearchResult :=
  l.foldr insert_by_score []

/-! ## Confidence estimator (`src/agent.py`, `SupportAgent._calculate_confidence`) -/

namespace SupportAgent

/-- `max(result.score for result in search_results)` over a non-empty list
(`0` is never consulted: the caller returns early on the empty list). -/
def max_score : List SearchResult → ℚ
  | [] => 0
  | r :: rs => rs.foldl (fun m x => max m x.score) r.score

/-- `sum(result.score for result in search_results) / len(search_results)`. -/
def avg_score (search_results : List SearchResult) : ℚ :=
  (search_results.map SearchResult.score).sum / search_results.length

/-- The strategy-factor table lookup
`{"faq_focus": 0.9, "manual_focus": 0.8, "balanced": 0.85, "error": 0.3}.get(strategy, 0.7)`. -/
def strategy_factor (search_strategy : String) : ℚ :=
  if search_strategy = "faq_focus" then 0.9
  else if search_strategy = "manual_focus" then 0.8
  else if search_strategy = "balanced" then 0.85
  else if search_strategy = "error" then 0.3
  else 0.7

/-- `SupportAgent._calculate_confidence`. -/
def calculate_confidence (search_results : List SearchResult)
    (search_strategy : String) : ℚ :=
  if search_results = [] then 0.0
  else
    let maxS := max_score search_results
    let avgS := avg_score search_results
    let result_count_factor : ℚ := min ((search_results.length : ℚ) / 3.0) 1.0
    let sfactor := strategy_factor search_strategy
    let confidence := (maxS * 0.6 + avgS * 0.4) * result_count_factor * sfactor
    max 0.0 (min 1.0 confidence)

end SupportAgent

/-! ## The confidence formula as the specification words it -/

/-- The strategy-factor table exactly as the specification lists it. -/
def spec_strategy_factor (tag : String) : ℚ :=
  if tag = "faq_focus" then 0.9
  else if tag = "manual_focus" then 0.8
  else if tag = "balanced" then 0.85
  else if tag = "error" then 0.3
  else 0.7

/-- The confidence formula as the specification words it:
`clamp((0.6 * max(score) + 0.4 * mean(score)) * min(len(results)/3, 1) * strategy_factor, 0, 1)`
for a non-empty result sequence, and `0.0` on the empty sequence.  `max` is
taken via `List.max?` over the mapped scores, independently of the
implementation's fold. -/
def spec_confidence (results : List SearchResult) (strategy : String) : ℚ :=
  if results.isEmpty then 0
  else
    let scores := results.map SearchResult.score
    clamp01 ((0.6 * (scores.max?.getD 0) + 0.4 * (scores.sum / scores.length))
      * min ((results.length : ℚ) / 3) 1 * spec_strategy_factor strategy)

/-! ## Strategy classifier (`tool/__init__.py`,
`UnifiedSearchEngine._determine_search_strategy`) -/

namespace UnifiedSearchEngine

/-- The FAQ keyword list of `_determine_search_strategy`
(login, application, password, cannot, error, account, user, sign-in,
trouble, problem). -/
def faq_keywords : List String :=
  ["ログイン", "申請", "パスワード", "できない", "エラー",
   "アカウント", "ユーザー", "サインイン", "トラブル", "問題"]

/-- The Manual keyword list of `_determine_search_strategy`
(procedure, method, setting, operation, screen, button, menu, feature,
usage, system). -/
def manual_keywords : List String :=
  ["手順", "方法", "設定", "操作", "画面", "ボタン",
   "メニュー", "機能", "使い方", "システム"]

/-- `UnifiedSearchEngine._determine_search_strategy`.  The `context`
argument is accepted (as in the source) and never consulted. -/
def determine_search_strategy (query : String) (context : Ctx) : String :=
  let query_lower := py_lower query
  let faq_score :=
    (faq_keywords.filter (fun keyword => str_contains query_lower keyword)).length
  let manual_score :=
    (manual_keywords.filter (fun keyword => str_contains query_lower keyword)).length
  if manual_score < faq_score then "faq_focus"
  else if faq_score < manual_score then "manual_focus"
  else "balanced"

end UnifiedSearchEngine

/-! ### The classifier as the specification words it -/

/-- The FAQ keyword set exactly as the specification enumerates it:
login/application/password/error/account/user/sign-in/trouble/problem in the
source locale — nine keywords. -/
def spec_faq_keywords : List String :=
  ["ログイン", "申請", "パスワード", "エラー",
   "アカウント", "ユーザー", "サインイン", "トラブル", "問題"]

/-- The Manual keyword set exactly as the specification enumerates it:
procedure/method/setting/operation/screen/button/menu/feature/usage/system
in the source locale. -/
def spec_manual_keywords : List String :=
  ["手順", "方法", "設定", "操作", "画面", "ボタン",
   "メニュー", "機能", "使い方", "システム"]

/-- The classification rule as the specification words it: lower-case the
query, count the keywords of each fixed set occurring as substrings, and
compare the counts. -/
def spec_classifier (query : String) : String :=
  let q := py_lower query
  let faq_count := spec_faq_keywords.countP (fun k => str_contains q k)
  let manual_count := spec_manual_keywords.countP (fun k => str_contains q k)
  if manual_count < faq_count then "faq_focus"
  else if faq_count < manual_count then "manual_focus"
  else "balanced"

/-- The amended classification rule: identical to `spec_classifier` except
that the FAQ keyword set additionally contains `"できない"` ("cannot"), as
the source's keyword list does. -/
def spec_classifier_amended (query : String) : String :=
  let q := py_lower query
  let faq_count :=
    (spec_faq_keywords ++ ["できない"]).countP (fun k => str_contains q k)
  let manual_count := spec_manual_keywords.countP (fun k => str_contains q k)
  if manual_count < faq_count then "faq_focus"
  else if faq_count < manual_count then "manual_focus"
  else "balanced"

/-! ## Source search adapters (`tool/search_xyz_qa.py`,
`tool/search_xyz_manual.py`)

Each adapter embeds the query, queries the vector index with its own `type`
filter, converts distances to similarity scores, filters by threshold and
sorts.  The embedder and the index are external collaborators modelled as
`Except`-valued functions in an `Ops` record, alongside the process
configuration.  `search_…_run` additionally records which external calls the
adapter issued (`"encode"`, then `"query"`), so that "no embedding call is
issued" is a provable statement and not just an observational one. -/

/-- Process-wide configuration (`src/configs.py`).  The field defaults are
the source's environment-variable defaults (`MAX_SEARCH_RESULTS = 5`,
`SIMILARITY_THRESHOLD = 0.7`). -/
structure Config where
  MAX_SEARCH_RESULTS : Nat := 5
  SIMILARITY_THRESHOLD : ℚ := 0.7
  deriving DecidableEq, Repr

namespace FAQSearchEngine

/-- An FAQ metadata row as stored in the index (keys may be absent —
`metadata.get` supplies defaults). -/
structure FaqMeta where
  question : Option String
  answer : Option String
  deriving DecidableEq, Repr

/-- The Chroma query response consumed by the FAQ adapter: three row-aligned
nested lists (`documents`, `metadatas`, `distances`). -/
structure RawFaqResults where
  documents : List (List String)
  metadatas : List (List FaqMeta)
  distances : List (List ℚ)
  deriving DecidableEq, Repr

/-- `FAQSearchEngine._format_faq_content`. -/
def format_faq_content (metadata : FaqMeta) : String :=
  "質問: " ++ metadata.question.getD "" ++ "\n回答: " ++ metadata.answer.getD ""

/-- `FAQSearchEngine._process_search_results`: guard on an absent/empty first
row, then convert each `(document, metadata, distance)` triple with
`similarity = max(0, 1 - distance)`, keep it iff `similarity >= min_score`,
and stable-sort the collected results by score descending. -/
def process_search_results (raw_results : RawFaqResults) (min_score : ℚ) :
    List SearchResult :=
  if raw_results.documents = [] ∨ raw_results.documents.headD [] = [] then []
  else
    let documents := raw_results.documents.headD []
    let metadatas := raw_results.metadatas.headD []
    let distances := raw_results.distances.headD []
    let collected := (documents.zip (metadatas.zip distances)).filterMap
      (fun t =>
        let metadata := t.2.1
        let distance := t.2.2
        let similarity_score := max 0 (1 - distance)
        if min_score ≤ similarity_score then
          some { content := format_faq_content metadata
                 source := "FAQ: " ++ metadata.question.getD "Unknown"
                 score := similarity_score
                 metadata := .faq (metadata.question.getD "")
                   (metadata.answer.getD "") distance }
        else none)
    sort_by_score_desc collected

/-- The FAQ adapter's external collaborators and configuration. -/
structure Ops where
  config : Config
  encode : String → Except PyErr (List ℚ)
  query_collection : List ℚ → Nat → Except PyErr RawFaqResults

/-- `FAQSearchEngine.search_faq`, instrumented: the first component is the
outcome of the `try` body, the second the ordered list of external calls
issued.  The empty-query guard returns before any external call. -/
def search_faq_run (ops : Ops) (query : String) (max_results : Option Nat)
    (min_score : Option ℚ) : Except PyErr (List SearchResult) × List String :=
  if py_strip query = "" then (.ok [], [])
  else
    let max_results := py_or_nat max_results ops.config.MAX_SEARCH_RESULTS
    let min_score := py_or_rat min_score ops.config.SIMILARITY_THRESHOLD
    match ops.encode query with
    | .error e => (.error e, ["encode"])
    | .ok query_embedding =>
      match ops.query_collection query_embedding max_results with
      | .error e => (.error e, ["encode", "query"])
      | .ok results =>
        (.ok (process_search_results results min_score), ["encode", "query"])

/-- `FAQSearchEngine.search_faq`: the `except Exception` handler degrades any
failure of the body to `[]`. -/
def search_faq (ops : Ops) (query : String) (max_results : Option Nat)
    (min_score : Option ℚ) : List SearchResult :=
  match (search_faq_run ops query max_results min_score).1 with
  | .ok search_results => search_results
  | .error _ => []

end FAQSearchEngine

/-- The remainder of a character list after the first occurrence of
`marker`, if `marker` occurs (Python `document.split(marker, 1)[1]`). -/
def chars_split_after (marker : List Char) : List Char → Option (List Char)
  | [] => if chars_begin_with marker [] then some [] else none
  | c :: cs =>
    if chars_begin_with marker (c :: cs) then some ((c :: cs).drop marker.length)
    else chars_split_after marker cs

/-- Python `Path(p).name`: the final path component. -/
def path_name (p : String) : String :=
  ⟨((p.data.reverse.takeWhile (fun c => c ≠ '/')).reverse)⟩

namespace ManualSearchEngine

/-- A manual metadata row as stored in the index (keys may be absent). -/
structure ManualMeta where
  title : Option String
  page : Option Nat
  file_path : Option String
  deriving DecidableEq, Repr

/-- The Chroma query response consumed by the Manual adapter. -/
structure RawManualResults where
  documents : List (List String)
  metadatas : List (List ManualMeta)
  distances : List (List ℚ)
  deriving DecidableEq, Repr

/-- The `f" (ページ {page})" if page else ""` fragment (a missing key
defaults to `''` and `0` is falsy, so both yield the empty fragment). -/
def page_fragment (page : Option Nat) : String :=
  match page with
  | some p => if p = 0 then "" else " (ページ " ++ toString p ++ ")"
  | none => ""

/-- `ManualSearchEngine._format_manual_content`: title, optional page
fragment, then the document body (the part after the `"内容: "` sentinel if
present, the whole document otherwise). -/
def format_manual_content (metadata : ManualMeta) (document : String) : String :=
  let title := metadata.title.getD "不明"
  let content :=
    match chars_split_after "内容: ".data document.data with
    | some rest => (⟨rest⟩ : String)
    | none => document
  title ++ page_fragment metadata.page ++ "\n" ++ content

/-- `ManualSearchEngine._format_source_info`. -/
def format_source_info (metadata : ManualMeta) : String :=
  let file_path := metadata.file_path.getD ""
  let title := metadata.title.getD ""
  let source :=
    if file_path ≠ "" then "マニュアル: " ++ path_name file_path else "マニュアル"
  let source := if title ≠ "" then source ++ " - " ++ title else source
  source ++ page_fragment metadata.page

/-- `ManualSearchEngine._process_search_results` (same shape as the FAQ
adapter's, with manual-specific formatting and metadata). -/
def process_search_results (raw_results : RawManualResults) (min_score : ℚ) :
    List SearchResult :=
  if raw_results.documents = [] ∨ raw_results.documents.headD [] = [] then []
  else
    let documents := raw_results.documents.headD []
    let metadatas := raw_results.metadatas.headD []
    let distances := raw_results.distances.headD []
    let collected := (documents.zip (metadatas.zip distances)).filterMap
      (fun t =>
        let document := t.1
        let metadata := t.2.1
        let distance := t.2.2
        let similarity_score := max 0 (1 - distance)
        if min_score ≤ similarity_score then
          some { content := format_manual_content metadata document
                 source := format_source_info metadata
                 score := similarity_score
                 metadata := .manual (metadata.title.getD "")
                   (metadata.page.getD 0) (metadata.file_path.getD "") distance }
        else none)
    sort_by_score_desc collected

/-- The Manual adapter's external collaborators and configuration. -/
structure Ops where
  config : Config
  encode : String → Except PyErr (List ℚ)
  query_collection : List ℚ → Nat → Except PyErr RawManualResults

/-- `ManualSearchEngine.search_manual`, instrumented like
`FAQSearchEngine.search_faq_run`. -/
def search_manual_run (ops : Ops) (query : String) (max_results : Option Nat)
    (min_score : Option ℚ) : Except PyErr (List SearchResult) × List String :=
  if py_strip query = "" then (.ok [], [])
  else
    let max_results := py_or_nat max_results ops.config.MAX_SEARCH_RESULTS
    let min_score := py_or_rat min_score ops.config.SIMILARITY_THRESHOLD
    match ops.encode query with
    | .error e => (.error e, ["encode"])
    | .ok query_embedding =>
      match ops.query_collection query_embedding max_results with
      | .error e => (.error e, ["encode", "query"])
      | .ok results =>
        (.ok (process_search_results results min_score), ["encode", "query"])

/-- `ManualSearchEngine.search_manual`. -/
def search_manual (ops : Ops) (query : String) (max_results : Option Nat)
    (min_score : Option ℚ) : List SearchResult :=
  match (search_manual_run ops query max_results min_score).1 with
  | .ok search_results => search_results
  | .error _ => []

end ManualSearchEngine

/-! ## Fusion engine (`tool/__init__.py`, `UnifiedSearchEngine`)

The engine holds the two adapter engines (`self.faq_engine`,
`self.manual_engine`).  Each adapter call is a function that may raise
(`Except PyErr`); quantifying over `Engines` quantifies over every possible
behaviour of the two adapters. -/

namespace UnifiedSearchEngine

/-- The two source search adapters held by the unified engine. -/
structure Engines where
  faq_engine : String → Nat → Option ℚ → Except PyErr (List SearchResult)
  manual_engine : String → Nat → Option ℚ → Except PyErr (List SearchResult)

/-- The `{'faq': …, 'manual': …}` result dict of `search_all`; both keys are
always present. -/
structure SearchAllResult where
  faq : List SearchResult
  manual : List SearchResult
  deriving DecidableEq, Repr

/-- `UnifiedSearchEngine.search_all`: each adapter call is wrapped in its own
`try/except` which degrades that source to `[]`; the outer handler of the
source cannot be reached because nothing after the two inner handlers can
raise. -/
def search_all (e : Engines) (query : String) (max_results_per_source : Nat)
    (min_score : Option ℚ) : SearchAllResult where
  faq :=
    match e.faq_engine query max_results_per_source min_score with
    | .ok faq_results => faq_results
    | .error _ => []
  manual :=
    match e.manual_engine query max_results_per_source min_score with
    | .ok manual_results => manual_results
    | .error _ => []

/-- `UnifiedSearchEngine.search_ranked`: fetch both sources (up to
`max_total_results` each), concatenate FAQ then Manual, stable-sort by score
descending, truncate.  Its `try/except` handler is unreachable: the body is
total. -/
def search_ranked (e : Engines) (query : String) (max_total_results : Nat)
    (min_score : Option ℚ) : List SearchResult :=
  let search_results := search_all e query max_total_results min_score
  let all_results := search_results.faq ++ search_results.manual
  (sort_by_score_desc all_results).take max_total_results

/-- `UnifiedSearchEngine.smart_search`: classify the query, then dispatch.
Its `try/except` handler (`return [], "error"`) is unreachable in this model:
`search_all` and `search_ranked` absorb every adapter failure and the
classifier is total. -/
def smart_search (e : Engines) (query : String) (context : Ctx) :
    List SearchResult × String :=
  let search_strategy := determine_search_strategy query context
  if search_strategy = "faq_focus" then
    let results := search_all e query 4 none
    (results.faq.take 3 ++ results.manual.take 2, search_strategy)
  else if search_strategy = "manual_focus" then
    let results := search_all e query 4 none
    (results.manual.take 3 ++ results.faq.take 2, search_strategy)
  else
    (search_ranked e query 5 none, search_strategy)

end UnifiedSearchEngine

/-! ## Agent request flow (`src/agent.py`, `SupportAgent`)

The agent's collaborators: the unified engine's `smart_search` (which, seen
from the agent, may in principle raise) and the chat-completion service
(modelled as prompt ↦ content of `choices[0].message.content`).  The prompt
builders of `src/prompts.py` are opaque text formatters. -/

namespace SupportAgent

/-- The agent's external collaborators. -/
structure Ops where
  smart_search : String → Ctx → Except PyErr (List SearchResult × String)
  chat_completion : String → Except PyErr String
  no_results_prompt : String → String
  faq_prompt : String → List SearchResult → String
  manual_prompt : String → List SearchResult → String
  multi_source_prompt : String → List SearchResult → List SearchResult → String

/-- `r.metadata.get('type') == 'faq'`. -/
def is_faq_result (r : SearchResult) : Bool :=
  match r.metadata with
  | .faq _ _ _ => true
  | .manual _ _ _ _ => false

/-- `r.metadata.get('type') == 'manual'`. -/
def is_manual_result (r : SearchResult) : Bool :=
  match r.metadata with
  | .faq _ _ _ => false
  | .manual _ _ _ _ => true

/-- `SupportAgent._search_knowledge_base`: delegate to `smart_search`; its
`except` handler degrades a failure to `([], "error")`. -/
def search_knowledge_base (a : Ops) (question : String) (context : Ctx) :
    List SearchResult × String :=
  match a.smart_search question context with
  | .ok r => r
  | .error _ => ([], "error")

/-- `SupportAgent._generate_answer_with_sources`: pick the prompt template
from which source partitions are non-empty, call the generation service,
strip the answer and compute the confidence; any failure degrades to a fixed
apology with confidence `0.0`. -/
def generate_answer_with_sources (a : Ops) (question : String)
    (search_results : List SearchResult) (search_strategy : String) :
    String × ℚ :=
  let faq_results := search_results.filter is_faq_result
  let manual_results := search_results.filter is_manual_result
  let prompt :=
    if ¬faq_results.isEmpty ∧ ¬manual_results.isEmpty then
      a.multi_source_prompt question faq_results manual_results
    else if ¬faq_results.isEmpty then a.faq_prompt question faq_results
    else if ¬manual_results.isEmpty then a.manual_prompt question manual_results
    else a.no_results_prompt question
  match a.chat_completion prompt with
  | .ok content =>
    (py_strip content, calculate_confidence search_results search_strategy)
  | .error _ => ("回答の生成中にエラーが発生しました。", 0.0)

/-- `SupportAgent._generate_no_results_answer`: synthesize from the
no-results template with fixed confidence `0.1`; if the generation call
fails, fall back to the raw template text with confidence `0.0`. -/
def generate_no_results_answer (a : Ops) (question : String) : String × ℚ :=
  match a.chat_completion (a.no_results_prompt question) with
  | .ok content => (py_strip content, 0.1)
  | .error _ => (a.no_results_prompt question, 0.0)

/-- The response object assembled by `process_question` (`processing_time`
is wall-clock time, outside this model). -/
structure AnswerResponse where
  answer : String
  confidence : ℚ
  sources : List SearchResult
  deriving DecidableEq, Repr

/-- `SupportAgent.process_question`: search, then answer either with sources
or through the no-results path.  The outer `except` handler (apology with
confidence `0.0`) is unreachable in this model: every step is total. -/
def process_question (a : Ops) (question : String) (context : Ctx) :
    AnswerResponse :=
  let sr := search_knowledge_base a question context
  let search_results := sr.1
  let search_strategy := sr.2
  if ¬search_results.isEmpty then
    let ac := generate_answer_with_sources a question search_results search_strategy
    { answer := ac.1, confidence := ac.2, sources := search_results }
  else
    let ac := generate_no_results_answer a question
    { answer := ac.1, confidence := ac.2, sources := [] }

end SupportAgent

theorem spec_strategy_factor_eq (s : String) :
    spec_strategy_factor s = SupportAgent.strategy_factor s := rfl

theorem foldl_max_score (rs : List SearchResult) (a : ℚ) :
    rs.foldl (fun m x => max m x.score) a =
      (rs.map SearchResult.score).foldl max a := by
  rw [List.foldl_map]

/-- The implementation's running maximum agrees with `List.max?`. -/
theorem max_score_eq_max? (r : SearchResult) (rs : List SearchResult) :
    SupportAgent.max_score (r :: rs) =
      ((r :: rs).map SearchResult.score).max?.getD 0 := by
  simp only [SupportAgent.max_score, List.map_cons, List.max?, Option.getD_some,
    foldl_max_score]

/-- **C1.** For every result sequence and strategy tag, the confidence
estimator returns exactly the specification's formula:
`clamp((0.6·max + 0.4·mean) · min(len/3, 1) · strategy_factor, 0, 1)` on a
non-empty sequence (with the strategy-factor table
faq_focus ↦ 0.9, manual_focus ↦ 0.8, balanced ↦ 0.85, error ↦ 0.3,
anything else ↦ 0.7), and `0.0` on the empty sequence. -/
theorem calculate_confidence_matches_spec
    (results : List SearchResult) (strategy : String) :
    SupportAgent.calculate_confidence results strategy =
      spec_confidence results strategy := by
  cases results with
  | nil =>
    simp only [SupportAgent.calculate_confidence, spec_confidence, if_pos rfl,
      List.isEmpty_nil, if_true]
    norm_num
  | cons r rs =>
    simp only [SupportAgent.calculate_confidence, spec_confidence, clamp01,
      List.isEmpty_cons, if_neg (List.cons_ne_nil r rs), Bool.false_eq_true,
      if_false, max_score_eq_max?, spec_strategy_factor_eq,
      SupportAgent.avg_score, List.length_map]
    ring_nf

/-- Sanity: the estimator on the empty fused set is `0` for any tag. -/
theorem calculate_confidence_nil (s : String) :
    SupportAgent.calculate_confidence [] s = 0 := by
  norm_num [SupportAgent.calculate_confidence]

/-! ## Monotonicity of the confidence estimator -/

theorem strategy_factor_nonneg (s : String) :
    0 ≤ SupportAgent.strategy_factor s := by
  unfold SupportAgent.strategy_factor
  split <;> try norm_num
  split <;> try norm_num
  split <;> try norm_num
  split <;> norm_num

theorem clamp01_mono {x y : ℚ} (h : x ≤ y) : clamp01 x ≤ clamp01 y :=
  max_le_max (le_refl 0) (min_le_min (le_refl 1) h)

theorem clamp01_nonneg (x : ℚ) : 0 ≤ clamp01 x := le_max_left 0 _

/-- The estimator on a non-empty list, written via `clamp01`. -/
theorem calculate_confidence_cons (r : SearchResult) (rs : List SearchResult)
    (s : String) :
    SupportAgent.calculate_confidence (r :: rs) s =
      clamp01 ((SupportAgent.max_score (r :: rs) * 0.6 +
          SupportAgent.avg_score (r :: rs) * 0.4) *
        min (((r :: rs).length : ℚ) / 3) 1 * SupportAgent.strategy_factor s) := by
  simp only [SupportAgent.calculate_confidence, if_neg (List.cons_ne_nil r rs), clamp01]
  norm_num

theorem calculate_confidence_nonneg (rs : List SearchResult) (s : String) :
    0 ≤ SupportAgent.calculate_confidence rs s := by
  cases rs with
  | nil => rw [calculate_confidence_nil]
  | cons r rs => rw [calculate_confidence_cons]; exact clamp01_nonneg _

theorem count_factor_nonneg (n : Nat) : (0 : ℚ) ≤ min ((n : ℚ) / 3) 1 := by
  apply le_min (by positivity) (by norm_num)

theorem confidence_mono_in_max (r₁ r₂ : List SearchResult) (s : String)
    (hlen : r₁.length = r₂.length)
    (havg : SupportAgent.avg_score r₁ = SupportAgent.avg_score r₂)
    (hmax : SupportAgent.max_score r₁ ≤ SupportAgent.max_score r₂) :
    SupportAgent.calculate_confidence r₁ s ≤
      SupportAgent.calculate_confidence r₂ s := by
  cases r₁ with
  | nil =>
    exact calculate_confidence_nil s ▸ calculate_confidence_nonneg r₂ s
  | cons a as =>
    cases r₂ with
    | nil => simp at hlen
    | cons b bs =>
      rw [calculate_confidence_cons, calculate_confidence_cons]
      apply clamp01_mono
      rw [← hlen, havg]
      apply mul_le_mul_of_nonneg_right _ (strategy_factor_nonneg s)
      apply mul_le_mul_of_nonneg_right _ (count_factor_nonneg _)
      nlinarith [hmax]

theorem confidence_mono_in_count (r₁ r₂ : List SearchResult) (s : String)
    (hmax : SupportAgent.max_score r₁ = SupportAgent.max_score r₂)
    (havg : SupportAgent.avg_score r₁ = SupportAgent.avg_score r₂)
    (hmax0 : 0 ≤ SupportAgent.max_score r₁)
    (havg0 : 0 ≤ SupportAgent.avg_score r₁)
    (hlen : r₁.length ≤ r₂.length) :
    SupportAgent.calculate_confidence r₁ s ≤
      SupportAgent.calculate_confidence r₂ s := by
  cases r₁ with
  | nil =>
    exact calculate_confidence_nil s ▸ calculate_confidence_nonneg r₂ s
  | cons a as =>
    cases r₂ with
    | nil => simp at hlen
    | cons b bs =>
      rw [calculate_confidence_cons, calculate_confidence_cons]
      apply clamp01_mono
      rw [← hmax, ← havg]
      apply mul_le_mul_of_nonneg_right _ (strategy_factor_nonneg s)
      apply mul_le_mul_of_nonneg_left
      · apply min_le_min _ (le_refl 1)
        have : ((a :: as).length : ℚ) ≤ ((b :: bs).length : ℚ) := by
          exact_mod_cast hlen
        linarith
      · nlinarith [hmax0, havg0]

theorem confidence_saturates (rs : List SearchResult) (s : String)
    (h : 3 ≤ rs.length) :
    SupportAgent.calculate_confidence rs s =
      clamp01 ((SupportAgent.max_score rs * 0.6 +
          SupportAgent.avg_score rs * 0.4) * SupportAgent.strategy_factor s) := by
  cases rs with
  | nil => simp at h
  | cons a as =>
    rw [calculate_confidence_cons]
    have h3 : (1 : ℚ) ≤ ((a :: as).length : ℚ) / 3 := by
      rw [le_div_iff₀ (by norm_num : (0:ℚ) < 3), one_mul]
      exact_mod_cast h
    rw [min_eq_right h3, mul_one]

/-- **C9.** The confidence estimator is monotonically non-decreasing in
`max(score)` holding the result count, mean score and strategy fixed; it is
monotonically non-decreasing in the result count holding the (non-negative)
max and mean scores and the strategy fixed; and for 3 or more results the
count factor saturates: the confidence is exactly
`clamp01((0.6·max + 0.4·mean) · strategy_factor)`. -/
theorem confidence_monotonicity :
    (∀ (r₁ r₂ : List SearchResult) (s : String),
      r₁.length = r₂.length →
      SupportAgent.avg_score r₁ = SupportAgent.avg_score r₂ →
      SupportAgent.max_score r₁ ≤ SupportAgent.max_score r₂ →
      SupportAgent.calculate_confidence r₁ s ≤
        SupportAgent.calculate_confidence r₂ s) ∧
    (∀ (r₁ r₂ : List SearchResult) (s : String),
      SupportAgent.max_score r₁ = SupportAgent.max_score r₂ →
      SupportAgent.avg_score r₁ = SupportAgent.avg_score r₂ →
      0 ≤ SupportAgent.max_score r₁ → 0 ≤ SupportAgent.avg_score r₁ →
      r₁.length ≤ r₂.length →
      SupportAgent.calculate_confidence r₁ s ≤
        SupportAgent.calculate_confidence r₂ s) ∧
    (∀ (rs : List SearchResult) (s : String), 3 ≤ rs.length →
      SupportAgent.calculate_confidence rs s =
        clamp01 ((SupportAgent.max_score rs * 0.6 +
            SupportAgent.avg_score rs * 0.4) * SupportAgent.strategy_factor s)) :=
  ⟨confidence_mono_in_max, confidence_mono_in_count, confidence_saturates⟩

/-! ## Claim C3: the strategy classifier -/

theorem faq_keywords_perm :
    UnifiedSearchEngine.faq_keywords.Perm (spec_faq_keywords ++ ["できない"]) := by
  decide

/-- **C3, counterexample.**  On the concrete query `"できない"` ("cannot")
the source classifier answers `faq_focus` — the word is on the source's FAQ
keyword list — while the rule stated by the claim (whose nine-keyword FAQ set
omits it) answers `balanced`.  The claim, as stated, is therefore false. -/
theorem classifier_counterexample :
    UnifiedSearchEngine.determine_search_strategy "できない" ([] : Ctx) = "faq_focus"
    ∧ spec_classifier "できない" = "balanced" := by
  constructor <;> decide

/-- **C3, amended.**  The classifier lower-cases the query, counts which
keywords of the fixed FAQ set — the specification's nine *plus* `"できない"`
("cannot") — and of the fixed Manual set occur as substrings, and returns
`faq_focus` exactly when the FAQ count exceeds the Manual count,
`manual_focus` exactly when the Manual count exceeds the FAQ count, and
`balanced` otherwise; the result is a pure function of the query text,
independent of the context argument (hence of call order and prior calls). -/
theorem determine_search_strategy_amended (q : String) (c c' : Ctx) :
    UnifiedSearchEngine.determine_search_strategy q c = spec_classifier_amended q
    ∧ UnifiedSearchEngine.determine_search_strategy q c =
        UnifiedSearchEngine.determine_search_strategy q c' := by
  refine ⟨?_, rfl⟩
  unfold UnifiedSearchEngine.determine_search_strategy spec_classifier_amended
  simp only [← List.countP_eq_length_filter]
  rw [faq_keywords_perm.countP_eq]
  rfl

/-! ## The stable sort: permutation, sortedness, stability -/

theorem insert_by_score_perm (x : SearchResult) (l : List SearchResult) :
    (insert_by_score x l).Perm (x :: l) := by
  induction l with
  | nil => exact List.Perm.refl _
  | cons y ys ih =>
    unfold insert_by_score
    split
    · exact List.Perm.refl _
    · exact (ih.cons y).trans (List.Perm.swap x y ys)

theorem sort_by_score_desc_perm (l : List SearchResult) :
    (sort_by_score_desc l).Perm l := by
  induction l with
  | nil => exact List.Perm.refl _
  | cons x xs ih =>
    exact (insert_by_score_perm x (sort_by_score_desc xs)).trans (ih.cons x)

theorem insert_by_score_pairwise (x : SearchResult) (l : List SearchResult)
    (h : l.Pairwise (fun a b => b.score ≤ a.score)) :
    (insert_by_score x l).Pairwise (fun a b => b.score ≤ a.score) := by
  induction l with
  | nil => simp [insert_by_score]
  | cons y ys ih =>
    rw [List.pairwise_cons] at h
    unfold insert_by_score
    split
    · rename_i hyx
      rw [List.pairwise_cons]
      refine ⟨?_, List.pairwise_cons.mpr h⟩
      intro z hz
      rcases List.mem_cons.mp hz with hzy | hzys
      · exact hzy ▸ hyx
      · exact le_trans (h.1 z hzys) hyx
    · rename_i hxy
      push_neg at hxy
      rw [List.pairwise_cons]
      refine ⟨?_, ih h.2⟩
      intro z hz
      have : z ∈ x :: ys := (insert_by_score_perm x ys).mem_iff.mp hz
      rcases List.mem_cons.mp this with hzx | hzys
      · exact hzx ▸ le_of_lt hxy
      · exact h.1 z hzys

theorem sort_by_score_desc_pairwise (l : List SearchResult) :
    (sort_by_score_desc l).Pairwise (fun a b => b.score ≤ a.score) := by
  induction l with
  | nil => simp [sort_by_score_desc]
  | cons x xs ih => exact insert_by_score_pairwise x (sort_by_score_desc xs) ih

theorem insert_by_score_filter (x : SearchResult) (l : List SearchResult)
    (s : ℚ) :
    (insert_by_score x l).filter (fun r => r.score = s) =
      (x :: l).filter (fun r => r.score = s) := by
  induction l with
  | nil => rfl
  | cons y ys ih =>
    unfold insert_by_score
    split
    · rfl
    · rename_i hxy
      push_neg at hxy
      simp only [List.filter_cons] at ih ⊢
      rw [ih]
      by_cases hx : x.score = s
      · by_cases hy : y.score = s
        · exact absurd (hx.trans hy.symm) (ne_of_lt hxy)
        · simp [hx, hy]
      · by_cases hy : y.score = s <;> simp [hx, hy]

theorem sort_by_score_desc_filter (l : List SearchResult) (s : ℚ) :
    (sort_by_score_desc l).filter (fun r => r.score = s) =
      l.filter (fun r => r.score = s) := by
  induction l with
  | nil => rfl
  | cons x xs ih =>
    show (insert_by_score x (sort_by_score_desc xs)).filter _ = _
    rw [insert_by_score_filter]
    simp only [List.filter_cons, ih]

/-- **C4.**  `search_ranked` asks `search_all` for up to `max_total_results`
per source and returns the first `max_total_results` elements of the stable
descending sort of the FAQ results concatenated with the Manual results.
The sorted sequence is a permutation of the concatenation, its scores are
descending, and for every score value the results carrying exactly that
score appear in concatenation order (so equal-scored FAQ results precede
equal-scored Manual results). -/
theorem search_ranked_spec (e : UnifiedSearchEngine.Engines) (query : String)
    (max_total_results : Nat) (min_score : Option ℚ) :
    UnifiedSearchEngine.search_ranked e query max_total_results min_score =
      (sort_by_score_desc
        ((UnifiedSearchEngine.search_all e query max_total_results min_score).faq ++
         (UnifiedSearchEngine.search_all e query max_total_results min_score).manual)).take
        max_total_results ∧
    (sort_by_score_desc
        ((UnifiedSearchEngine.search_all e query max_total_results min_score).faq ++
         (UnifiedSearchEngine.search_all e query max_total_results min_score).manual)).Perm
      ((UnifiedSearchEngine.search_all e query max_total_results min_score).faq ++
       (UnifiedSearchEngine.search_all e query max_total_results min_score).manual) ∧
    (UnifiedSearchEngine.search_ranked e query max_total_results
        min_score).Pairwise (fun a b => b.score ≤ a.score) ∧
    (∀ s : ℚ,
      (sort_by_score_desc
        ((UnifiedSearchEngine.search_all e query max_total_results min_score).faq ++
         (UnifiedSearchEngine.search_all e query max_total_results min_score).manual)).filter
          (fun r => r.score = s) =
        ((UnifiedSearchEngine.search_all e query max_total_results min_score).faq ++
         (UnifiedSearchEngine.search_all e query max_total_results min_score).manual).filter
          (fun r => r.score = s)) ∧
    (UnifiedSearchEngine.search_ranked e query max_total_results
        min_score).length ≤ max_total_results := by
  refine ⟨rfl, sort_by_score_desc_perm _, ?_, fun s => sort_by_score_desc_filter _ s, ?_⟩
  · exact (sort_by_score_desc_pairwise _).sublist (List.take_sublist _ _)
  · exact List.length_take_le _ _

/-! ## Claim C7: failure isolation in `search_all` -/

/-- **C7.**  `search_all` is a total function of the two adapters' behaviours
(in the model it cannot raise, mirroring the source where every adapter call
sits in its own `except` block), and the result dict always carries both
entries: a failing FAQ adapter yields `faq = []`, a failing Manual adapter
yields `manual = []`, a succeeding adapter's results are passed through
unchanged, and each entry depends only on its own adapter. -/
theorem search_all_isolates_failures (e : UnifiedSearchEngine.Engines)
    (query : String) (m : Nat) (ms : Option ℚ) :
    (∀ err, e.faq_engine query m ms = .error err →
      (UnifiedSearchEngine.search_all e query m ms).faq = []) ∧
    (∀ rs, e.faq_engine query m ms = .ok rs →
      (UnifiedSearchEngine.search_all e query m ms).faq = rs) ∧
    (∀ err, e.manual_engine query m ms = .error err →
      (UnifiedSearchEngine.search_all e query m ms).manual = []) ∧
    (∀ rs, e.manual_engine query m ms = .ok rs →
      (UnifiedSearchEngine.search_all e query m ms).manual = rs) ∧
    (∀ e' : UnifiedSearchEngine.Engines,
      e.manual_engine = e'.manual_engine →
      (UnifiedSearchEngine.search_all e query m ms).manual =
        (UnifiedSearchEngine.search_all e' query m ms).manual) ∧
    (∀ e' : UnifiedSearchEngine.Engines,
      e.faq_engine = e'.faq_engine →
      (UnifiedSearchEngine.search_all e query m ms).faq =
        (UnifiedSearchEngine.search_all e' query m ms).faq) := by
  refine ⟨fun err h => ?_, fun rs h => ?_, fun err h => ?_, fun rs h => ?_,
    fun e' h => ?_, fun e' h => ?_⟩ <;>
    simp [UnifiedSearchEngine.search_all, h]

/-- Witness for C7: a concrete engine pair whose FAQ adapter raises and whose
Manual adapter returns one result; the fused dict is `{faq: [], manual: [r]}`. -/
theorem search_all_isolates_failures_witness :
    (UnifiedSearchEngine.search_all
      ⟨fun _ _ _ => .error ⟨"index down"⟩,
       fun _ _ _ => .ok [⟨"c", "s", 1/2, .manual "t" 1 "p" (1/2)⟩]⟩
      "x" 3 none).faq = [] ∧
    (UnifiedSearchEngine.search_all
      ⟨fun _ _ _ => .error ⟨"index down"⟩,
       fun _ _ _ => .ok [⟨"c", "s", 1/2, .manual "t" 1 "p" (1/2)⟩]⟩
      "x" 3 none).manual = [⟨"c", "s", 1/2, .manual "t" 1 "p" (1/2)⟩] :=
  ⟨(search_all_isolates_failures _ "x" 3 none).1 ⟨"index down"⟩ rfl,
   (search_all_isolates_failures _ "x" 3 none).2.2.2.1 _ rfl⟩

/-! ## Claim C2: `smart_search` strategy dispatch -/

/-- **C2.**  `smart_search` classifies the query and dispatches: under
`faq_focus` it fetches up to 4 results per source and returns the first 3
FAQ results followed by the first 2 Manual results; under `manual_focus`,
the first 3 Manual then the first 2 FAQ; under `balanced`, the output of
`search_ranked` with cap 5.  The returned tag is always the classifier's
tag.  (The source's `except` fallback `([], "error")` is unreachable:
`search_all` and `search_ranked` absorb all adapter failures, so the `try`
body is total — the claim's error clause holds vacuously.) -/
theorem smart_search_dispatch (e : UnifiedSearchEngine.Engines)
    (query : String) (context : Ctx) :
    (UnifiedSearchEngine.determine_search_strategy query context = "faq_focus" →
      UnifiedSearchEngine.smart_search e query context =
        ((UnifiedSearchEngine.search_all e query 4 none).faq.take 3 ++
         (UnifiedSearchEngine.search_all e query 4 none).manual.take 2,
         "faq_focus")) ∧
    (UnifiedSearchEngine.determine_search_strategy query context = "manual_focus" →
      UnifiedSearchEngine.smart_search e query context =
        ((UnifiedSearchEngine.search_all e query 4 none).manual.take 3 ++
         (UnifiedSearchEngine.search_all e query 4 none).faq.take 2,
         "manual_focus")) ∧
    (UnifiedSearchEngine.determine_search_strategy query context = "balanced" →
      UnifiedSearchEngine.smart_search e query context =
        (UnifiedSearchEngine.search_ranked e query 5 none, "balanced")) ∧
    (UnifiedSearchEngine.smart_search e query context).2 =
      UnifiedSearchEngine.determine_search_strategy query context := by
  refine ⟨fun h => ?_, fun h => ?_, fun h => ?_, ?_⟩
  · simp [UnifiedSearchEngine.smart_search, h]
  · simp [UnifiedSearchEngine.smart_search, h]
  · simp [UnifiedSearchEngine.smart_search, h]
  · by_cases h1 :
      UnifiedSearchEngine.determine_search_strategy query context = "faq_focus"
    · simp [UnifiedSearchEngine.smart_search, h1]
    · by_cases h2 :
        UnifiedSearchEngine.determine_search_strategy query context = "manual_focus"
      · simp [UnifiedSearchEngine.smart_search, h1, h2]
      · simp [UnifiedSearchEngine.smart_search, h1, h2]

/-- Witness for C2: the query `"ログイン"` (login) classifies as `faq_focus`
and the dispatch equation holds at a concrete engine. -/
theorem smart_search_dispatch_witness :
    UnifiedSearchEngine.smart_search
      ⟨fun _ _ _ => .ok [], fun _ _ _ => .ok []⟩ "ログイン" ([] : Ctx) =
      ((UnifiedSearchEngine.search_all
          ⟨fun _ _ _ => .ok [], fun _ _ _ => .ok []⟩ "ログイン" 4 none).faq.take 3 ++
       (UnifiedSearchEngine.search_all
          ⟨fun _ _ _ => .ok [], fun _ _ _ => .ok []⟩ "ログイン" 4 none).manual.take 2,
       "faq_focus") :=
  (smart_search_dispatch _ "ログイン" []).1 (by decide)

/-! ## Claim C8: empty-query short-circuit -/

/-- **C8.**  On an empty or whitespace-only query, each adapter returns `[]`
from inside the `try` body (so no exception reaches the handler), before
issuing any external call: the instrumented run shows an `ok []` outcome and
an empty call trace for both adapters, for every behaviour of the embedder
and index. -/
theorem empty_query_short_circuits (opsF : FAQSearchEngine.Ops)
    (opsM : ManualSearchEngine.Ops) (query : String)
    (max_results : Option Nat) (min_score : Option ℚ)
    (h : py_strip query = "") :
    FAQSearchEngine.search_faq_run opsF query max_results min_score =
      (.ok [], []) ∧
    FAQSearchEngine.search_faq opsF query max_results min_score = [] ∧
    ManualSearchEngine.search_manual_run opsM query max_results min_score =
      (.ok [], []) ∧
    ManualSearchEngine.search_manual opsM query max_results min_score = [] := by
  refine ⟨?_, ?_, ?_, ?_⟩ <;>
    simp [FAQSearchEngine.search_faq_run, FAQSearchEngine.search_faq,
      ManualSearchEngine.search_manual_run, ManualSearchEngine.search_manual, h]

/-- Witness for C8 at the whitespace query `"  "`, with adapters whose
collaborators always fail (so any issued call would be visible). -/
theorem empty_query_short_circuits_witness :
    py_strip "  " = "" ∧
    FAQSearchEngine.search_faq_run
      ⟨{}, fun _ => .error ⟨"no embedder"⟩, fun _ _ => .error ⟨"no index"⟩⟩
      "  " none none = (.ok [], []) :=
  ⟨by decide,
   (empty_query_short_circuits
      ⟨{}, fun _ => .error ⟨"no embedder"⟩, fun _ _ => .error ⟨"no index"⟩⟩
      ⟨{}, fun _ => .error ⟨"no embedder"⟩, fun _ _ => .error ⟨"no index"⟩⟩
      "  " none none (by decide)).1⟩

/-! ## Claim C10: falsy explicit arguments fall back to configuration -/

/-- **C10.**  Passing `max_results = 0` or `min_score = 0.0` explicitly is
indistinguishable from leaving the argument unset: Python's `x or default`
treats both as falsy, so the process-wide configuration value is used — a
caller cannot obtain a zero-threshold search by passing `0.0`.  The
configuration defaults are `MAX_SEARCH_RESULTS = 5` and
`SIMILARITY_THRESHOLD = 0.7`. -/
theorem falsy_args_use_defaults (opsF : FAQSearchEngine.Ops)
    (opsM : ManualSearchEngine.Ops) (query : String)
    (max_results : Option Nat) (min_score : Option ℚ) :
    FAQSearchEngine.search_faq_run opsF query (some 0) min_score =
      FAQSearchEngine.search_faq_run opsF query none min_score ∧
    FAQSearchEngine.search_faq_run opsF query max_results (some 0) =
      FAQSearchEngine.search_faq_run opsF query max_results none ∧
    ManualSearchEngine.search_manual_run opsM query (some 0) min_score =
      ManualSearchEngine.search_manual_run opsM query none min_score ∧
    ManualSearchEngine.search_manual_run opsM query max_results (some 0) =
      ManualSearchEngine.search_manual_run opsM query max_results none ∧
    py_or_nat (some 0) opsF.config.MAX_SEARCH_RESULTS =
      opsF.config.MAX_SEARCH_RESULTS ∧
    py_or_rat (some 0) opsF.config.SIMILARITY_THRESHOLD =
      opsF.config.SIMILARITY_THRESHOLD ∧
    ({} : Config).MAX_SEARCH_RESULTS = 5 ∧
    ({} : Config).SIMILARITY_THRESHOLD = 0.7 := by
  refine ⟨rfl, ?_, rfl, ?_, rfl, ?_, rfl, rfl⟩ <;>
    simp [FAQSearchEngine.search_faq_run, ManualSearchEngine.search_manual_run,
      py_or_rat]

/-! ## Claim C5: adapter score invariants -/

theorem mem_process_faq {raw : FAQSearchEngine.RawFaqResults} {ms : ℚ}
    {r : SearchResult}
    (h : r ∈ FAQSearchEngine.process_search_results raw ms) :
    ms ≤ r.score ∧ r.score = max 0 (1 - r.metadata.original_distance) ∧
    r.metadata.original_distance ∈ raw.distances.headD [] := by
  unfold FAQSearchEngine.process_search_results at h
  split at h
  · simp at h
  · have hcol := (sort_by_score_desc_perm _).mem_iff.mp h
    rw [List.mem_filterMap] at hcol
    obtain ⟨⟨doc, meta, dist⟩, ht, hft⟩ := hcol
    dsimp only at hft
    split at hft
    · rename_i hms
      rw [Option.some_inj] at hft
      subst hft
      exact ⟨hms, rfl, (List.of_mem_zip (List.of_mem_zip ht).2).2⟩
    · simp at hft

theorem mem_process_manual {raw : ManualSearchEngine.RawManualResults} {ms : ℚ}
    {r : SearchResult}
    (h : r ∈ ManualSearchEngine.process_search_results raw ms) :
    ms ≤ r.score ∧ r.score = max 0 (1 - r.metadata.original_distance) ∧
    r.metadata.original_distance ∈ raw.distances.headD [] := by
  unfold ManualSearchEngine.process_search_results at h
  split at h
  · simp at h
  · have hcol := (sort_by_score_desc_perm _).mem_iff.mp h
    rw [List.mem_filterMap] at hcol
    obtain ⟨⟨doc, meta, dist⟩, ht, hft⟩ := hcol
    dsimp only at hft
    split at hft
    · rename_i hms
      rw [Option.some_inj] at hft
      subst hft
      exact ⟨hms, rfl, (List.of_mem_zip (List.of_mem_zip ht).2).2⟩
    · simp at hft

theorem process_faq_pairwise (raw : FAQSearchEngine.RawFaqResults) (ms : ℚ) :
    (FAQSearchEngine.process_search_results raw ms).Pairwise
      (fun a b => b.score ≤ a.score) := by
  unfold FAQSearchEngine.process_search_results
  split
  · simp
  · exact sort_by_score_desc_pairwise _

theorem process_manual_pairwise (raw : ManualSearchEngine.RawManualResults)
    (ms : ℚ) :
    (ManualSearchEngine.process_search_results raw ms).Pairwise
      (fun a b => b.score ≤ a.score) := by
  unfold ManualSearchEngine.process_search_results
  split
  · simp
  · exact sort_by_score_desc_pairwise _

/-- **C5.**  For either adapter, over any index response whose (first-row)
distances are those of a distance metric (non-negative): every returned
result's score is `max(0, 1 - d)` for its own stored distance `d`, which is
one of the response's distances; every returned score lies in `[0, 1]`;
every result scoring strictly below `min_score` is discarded (all survivors
score at least `min_score` — in particular, with a positive threshold no
returned result can score `0`); and the surviving results are sorted by
score descending. -/
theorem adapter_score_invariants (rawF : FAQSearchEngine.RawFaqResults)
    (rawM : ManualSearchEngine.RawManualResults) (ms : ℚ)
    (hF : ∀ d ∈ rawF.distances.headD [], 0 ≤ d)
    (hM : ∀ d ∈ rawM.distances.headD [], 0 ≤ d) :
    (∀ r ∈ FAQSearchEngine.process_search_results rawF ms,
      ms ≤ r.score ∧ 0 ≤ r.score ∧ r.score ≤ 1 ∧
      r.score = max 0 (1 - r.metadata.original_distance) ∧
      r.metadata.original_distance ∈ rawF.distances.headD []) ∧
    (FAQSearchEngine.process_search_results rawF ms).Pairwise
      (fun a b => b.score ≤ a.score) ∧
    (∀ r ∈ ManualSearchEngine.process_search_results rawM ms,
      ms ≤ r.score ∧ 0 ≤ r.score ∧ r.score ≤ 1 ∧
      r.score = max 0 (1 - r.metadata.original_distance) ∧
      r.metadata.original_distance ∈ rawM.distances.headD []) ∧
    (ManualSearchEngine.process_search_results rawM ms).Pairwise
      (fun a b => b.score ≤ a.score) := by
  refine ⟨fun r hr => ?_, process_faq_pairwise rawF ms,
    fun r hr => ?_, process_manual_pairwise rawM ms⟩
  · obtain ⟨h1, h2, h3⟩ := mem_process_faq hr
    have hd := hF _ h3
    exact ⟨h1, h2 ▸ le_max_left 0 _, h2 ▸ max_le (by norm_num) (by linarith),
      h2, h3⟩
  · obtain ⟨h1, h2, h3⟩ := mem_process_manual hr
    have hd := hM _ h3
    exact ⟨h1, h2 ▸ le_max_left 0 _, h2 ▸ max_le (by norm_num) (by linarith),
      h2, h3⟩

/-- Witness for C5 at a concrete one-row response per adapter (FAQ distance
`0.1`, threshold `0.7`; Manual distance `1`, so the Manual result scores `0`
and is discarded by the threshold). -/
theorem adapter_score_invariants_witness :
    (∀ d ∈ (FAQSearchEngine.RawFaqResults.mk [["D"]] [[⟨some "Q", some "A"⟩]]
        [[1/10]]).distances.headD [], 0 ≤ d) ∧
    (∀ r ∈ FAQSearchEngine.process_search_results
        (.mk [["D"]] [[⟨some "Q", some "A"⟩]] [[1/10]]) (7/10),
      (7/10 : ℚ) ≤ r.score ∧ 0 ≤ r.score ∧ r.score ≤ 1 ∧
      r.score = max 0 (1 - r.metadata.original_distance) ∧
      r.metadata.original_distance ∈
        (FAQSearchEngine.RawFaqResults.mk [["D"]] [[⟨some "Q", some "A"⟩]]
          [[1/10]]).distances.headD []) :=
  ⟨by norm_num,
   (adapter_score_invariants (.mk [["D"]] [[⟨some "Q", some "A"⟩]] [[1/10]])
      (.mk [["D"]] [[⟨none, none, none⟩]] [[1]]) (7/10)
      (by norm_num) (by norm_num)).1⟩

/-! ## Claim C6: the no-results path and its fixed confidence -/

/-- **C6.**  Whenever the fused search yields no results, the agent answers
through the no-results template: if the generation service succeeds, the
response carries the fixed confidence `0.1` (not the general estimator's
value) and no sources; only if that synthesis call itself fails does the
confidence drop to `0.0` (with the raw template text as answer). -/
theorem no_results_fixed_confidence (a : SupportAgent.Ops) (question : String)
    (context : Ctx)
    (h : (SupportAgent.search_knowledge_base a question context).1 = []) :
    (∀ ans, a.chat_completion (a.no_results_prompt question) = .ok ans →
      SupportAgent.process_question a question context =
        ⟨py_strip ans, 0.1, []⟩) ∧
    (∀ err, a.chat_completion (a.no_results_prompt question) = .error err →
      SupportAgent.process_question a question context =
        ⟨a.no_results_prompt question, 0.0, []⟩) := by
  constructor <;> intro x hx <;>
    simp [SupportAgent.process_question, SupportAgent.generate_no_results_answer,
      h, hx]

/-- Witness for C6: an agent whose engine finds nothing and whose generation
service answers `" 回答 "`; the response is the stripped answer with
confidence `0.1`. -/
theorem no_results_fixed_confidence_witness :
    (SupportAgent.search_knowledge_base
      ⟨fun _ _ => .ok ([], "balanced"), fun _ => .ok " 回答 ",
       fun q => "NO_RESULTS:" ++ q, fun _ _ => "FAQ", fun _ _ => "MANUAL",
       fun _ _ _ => "MULTI"⟩ "q" ([] : Ctx)).1 = [] ∧
    SupportAgent.process_question
      ⟨fun _ _ => .ok ([], "balanced"), fun _ => .ok " 回答 ",
       fun q => "NO_RESULTS:" ++ q, fun _ _ => "FAQ", fun _ _ => "MANUAL",
       fun _ _ _ => "MULTI"⟩ "q" ([] : Ctx) = ⟨py_strip " 回答 ", 0.1, []⟩ :=
  ⟨rfl,
   (no_results_fixed_confidence
      ⟨fun _ _ => .ok ([], "balanced"), fun _ => .ok " 回答 ",
       fun q => "NO_RESULTS:" ++ q, fun _ _ => "FAQ", fun _ _ => "MANUAL",
       fun _ _ _ => "MULTI"⟩ "q" [] rfl).1 " 回答 " rfl⟩

/-- Witness for C9: monotonicity in the max score at two concrete two-element
lists sharing length and mean, and saturation at a concrete three-element
list. -/
theorem confidence_monotonicity_witness :
    SupportAgent.calculate_confidence
        [⟨"a", "s", 1/2, .faq "q" "a" 0⟩, ⟨"b", "s", 1/2, .faq "q" "a" 0⟩]
        "balanced" ≤
      SupportAgent.calculate_confidence
        [⟨"c", "s", 4/5, .faq "q" "a" 0⟩, ⟨"d", "s", 1/5, .faq "q" "a" 0⟩]
        "balanced" ∧
    SupportAgent.calculate_confidence
        [⟨"a", "s", 1/2, .faq "q" "a" 0⟩, ⟨"b", "s", 1/2, .faq "q" "a" 0⟩,
         ⟨"c", "s", 1/2, .faq "q" "a" 0⟩] "balanced" =
      clamp01 ((SupportAgent.max_score
          [⟨"a", "s", 1/2, .faq "q" "a" 0⟩, ⟨"b", "s", 1/2, .faq "q" "a" 0⟩,
           ⟨"c", "s", 1/2, .faq "q" "a" 0⟩] * 0.6 +
        SupportAgent.avg_score
          [⟨"a", "s", 1/2, .faq "q" "a" 0⟩, ⟨"b", "s", 1/2, .faq "q" "a" 0⟩,
           ⟨"c", "s", 1/2, .faq "q" "a" 0⟩] * 0.4) *
        SupportAgent.strategy_factor "balanced") :=
  ⟨confidence_monotonicity.1 _ _ "balanced" rfl
      (by norm_num [SupportAgent.avg_score]) (by norm_num [SupportAgent.max_score]),
   confidence_monotonicity.2.2 _ "balanced" (by norm_num)⟩

/-- Witness for C1 at a concrete singleton result list. -/
theorem calculate_confidence_matches_spec_witness :
    SupportAgent.calculate_confidence [⟨"c", "s", 9/10, .faq "q" "a" (1/10)⟩]
        "faq_focus" =
      spec_confidence [⟨"c", "s", 9/10, .faq "q" "a" (1/10)⟩] "faq_focus" :=
  calculate_confidence_matches_spec [⟨"c", "s", 9/10, .faq "q" "a" (1/10)⟩]
    "faq_focus"

/-- Witness for the amended C3 at the concrete query `"手順"` (procedure) and
two different contexts. -/
theorem determine_search_strategy_amended_witness :
    UnifiedSearchEngine.determine_search_strategy "手順" ([] : Ctx) =
        spec_classifier_amended "手順" ∧
    UnifiedSearchEngine.determine_search_strategy "手順" ([] : Ctx) =
      UnifiedSearchEngine.determine_search_strategy "手順"
        ([("k", "v")] : Ctx) :=
  determine_search_strategy_amended "手順" [] [("k", "v")]

/-- Witness for C4 at a concrete engine: the ranked output is sorted
descending and respects the cap. -/
theorem search_ranked_spec_witness :
    (UnifiedSearchEngine.search_ranked
      ⟨fun _ _ _ => .ok [⟨"f", "s", 1/2, .faq "q" "a" (1/2)⟩],
       fun _ _ _ => .ok [⟨"m", "s", 3/4, .manual "t" 1 "p" (1/4)⟩]⟩
      "q" 5 none).Pairwise (fun a b => b.score ≤ a.score) ∧
    (UnifiedSearchEngine.search_ranked
      ⟨fun _ _ _ => .ok [⟨"f", "s", 1/2, .faq "q" "a" (1/2)⟩],
       fun _ _ _ => .ok [⟨"m", "s", 3/4, .manual "t" 1 "p" (1/4)⟩]⟩
      "q" 5 none).length ≤ 5 :=
  ⟨(search_ranked_spec
      ⟨fun _ _ _ => .ok [⟨"f", "s", 1/2, .faq "q" "a" (1/2)⟩],
       fun _ _ _ => .ok [⟨"m", "s", 3/4, .manual "t" 1 "p" (1/4)⟩]⟩
      "q" 5 none).2.2.1,
   (search_ranked_spec
      ⟨fun _ _ _ => .ok [⟨"f", "s", 1/2, .faq "q" "a" (1/2)⟩],
       fun _ _ _ => .ok [⟨"m", "s", 3/4, .manual "t" 1 "p" (1/4)⟩]⟩
      "q" 5 none).2.2.2.2⟩

/-- Witness for C10 at a concrete FAQ adapter: an explicit `max_results = 0`
behaves exactly like an unset argument, and the default threshold is `0.7`. -/
theorem falsy_args_use_defaults_witness :
    FAQSearchEngine.search_faq_run
        ⟨{}, fun _ => .ok [1], fun _ _ => .ok ⟨[], [], []⟩⟩ "q" (some 0) none =
      FAQSearchEngine.search_faq_run
        ⟨{}, fun _ => .ok [1], fun _ _ => .ok ⟨[], [], []⟩⟩ "q" none none ∧
    ({} : Config).SIMILARITY_THRESHOLD = 0.7 :=
  ⟨(falsy_args_use_defaults
      ⟨{}, fun _ => .ok [1], fun _ _ => .ok ⟨[], [], []⟩⟩
      ⟨{}, fun _ => .ok [1], fun _ _ => .ok ⟨[], [], []⟩⟩
      "q" none none).1,
   (falsy_args_use_defaults
      ⟨{}, fun _ => .ok [1], fun _ _ => .ok ⟨[], [], []⟩⟩
      ⟨{}, fun _ => .ok [1], fun _ _ => .ok ⟨[], [], []⟩⟩
      "q" none none).2.2.2.2.2.2.2⟩
